import Mathlib

/-!
Shallow embedding of the Mission Control orchestration core
(`src/lib/chip-orchestration.ts`, "HyperOrchestrator v5.1"), together with
theorems checking the natural-language specification against it.

Modelling conventions:
- The remote task store (reached over HTTP in the source) is modelled as an
  explicit `Store` value threaded through every operation.  Read endpoints
  that the source reaches through `apiGet` are lookups into the store; write
  endpoints (`apiPost`/`apiPatch`) are functional updates of the store.
- The session list returned by `GET /api/tasks/{id}/subagent` is sorted
  newest-first in the source ("Already sorted DESC by created_at"); the model
  keeps `Store.sessions` in that order and lets session creation prepend.
- A session created by `POST /api/tasks/{id}/subagent` starts with status
  `"active"`: the `openclaw_sessions` table declares `status TEXT DEFAULT
  'active'` in the database schema.
- Write endpoints are modelled as succeeding.  The only store failure any
  claim depends on is the deliverables `GET`, modelled by the
  `deliverablesFetchFails` flag; `getDeliverables` wraps that fetch in the
  same try/catch the source has.
- `fetch` exceptions become `Except` errors.  The generic `Error` objects the
  source throws are mapped to the structured constructors of `OrchError`
  (`invalidTransition` carries both endpoints exactly as the source message
  interpolates them); quote characters are elided from message strings.
- JavaScript `String.prototype.startsWith` is modelled as `jsStartsWith`
  (character-list prefix), and `candidate.replace(/^~/, HOME)` as
  `expandHome`.  `process.env.HOME || '/tmp'` and `PROJECTS_BASE` are the two
  fields of `Env`.
-/

deriving instance DecidableEq for Except

namespace MissionControl

/-- Task lifecycle status, per the `TaskStatus` union type and the CHECK
constraint on `tasks.status` in the database schema. -/
inductive TaskStatus where
  | inbox
  | assigned
  | in_progress
  | testing
  | review
  | done
deriving DecidableEq, BEq

/-- Valid forward-only status transitions (`STATUS_ORDER` in the source). -/
def STATUS_ORDER : List TaskStatus :=
  [TaskStatus.inbox, TaskStatus.assigned, TaskStatus.in_progress,
   TaskStatus.testing, TaskStatus.review, TaskStatus.done]

/-- Position of a status in the fixed lifecycle order, as the claims phrase
it ("the index of the status in the fixed lifecycle order").  Used to state
claims; the source computes the same number via `STATUS_ORDER.indexOf`. -/
def statusIndex : TaskStatus → Nat
  | TaskStatus.inbox => 0
  | TaskStatus.assigned => 1
  | TaskStatus.in_progress => 2
  | TaskStatus.testing => 3
  | TaskStatus.review => 4
  | TaskStatus.done => 5

/-- `isValidTransition(from, to)` from the source: compares the positions of
the two statuses in `STATUS_ORDER`.  The source guard `fromIndex === -1 ||
toIndex === -1` is unreachable here because every `TaskStatus` value occurs
in `STATUS_ORDER`, so it is not modelled. -/
def isValidTransition (src tgt : TaskStatus) : Bool :=
  let fromIndex := STATUS_ORDER.indexOf src
  let toIndex := STATUS_ORDER.indexOf tgt
  decide (toIndex > fromIndex)

/-- Rendering of a status used in issue messages (`'${task.status}'`). -/
def statusToString : TaskStatus → String
  | TaskStatus.inbox => "inbox"
  | TaskStatus.assigned => "assigned"
  | TaskStatus.in_progress => "in_progress"
  | TaskStatus.testing => "testing"
  | TaskStatus.review => "review"
  | TaskStatus.done => "done"

/-- Environment of the module: `process.env.HOME || '/tmp'` and
`PROJECTS_BASE` (the configured root bounding all writes). -/
structure Env where
  home : String
  projectsBase : String
deriving DecidableEq

/-- JavaScript `s.startsWith(p)`: `p` is a character-wise prefix of `s`. -/
def jsStartsWith (s p : String) : Bool :=
  p.data.isPrefixOf s.data

/-- JavaScript `p.replace(/^~/, home)`: replace a leading tilde, if any, by
the home directory. -/
def expandHome (home p : String) : String :=
  if jsStartsWith p "~" then String.mk (home.data ++ p.data.drop 1) else p

/-- `safePath(candidate, taskId)` from the source: expand home-relative
notation in both the candidate and the configured root, return the candidate
when it starts with the root, otherwise override to the safe default
`{root}/{taskId}/`. -/
def safePath (env : Env) (candidate taskId : String) : String :=
  let resolved := expandHome env.home candidate
  let base := expandHome env.home env.projectsBase
  if jsStartsWith resolved base then resolved
  else base ++ "/" ++ taskId ++ "/"

/-- Task entity.  `metadata` holds the optional task-metadata output
directory: the spec data model (§3) lists a `metadata` field and the source
comment at the metadata branch of `preflight` mentions it, but the source
code never reads it (the field is carried here so that the spec-side
derivation of the output directory can be compared with the code). -/
structure Task where
  id : String
  title : String := ""
  description : Option String := none
  status : TaskStatus
  assigned_agent_id : Option String := none
  metadata : Option String := none
deriving DecidableEq

/-- Sub-agent session entity, per the `SubAgentSession` interface. -/
structure SubAgentSession where
  id : String
  agent_id : Option String := none
  openclaw_session_id : String
  session_type : String := "persistent"
  task_id : String
  status : String
  ended_at : Option String := none
  created_at : String := ""
  agent_name : Option String := none
deriving DecidableEq

/-- Task activity entity (`task_activities` row).  JSON metadata payloads are
modelled as string key/value pairs. -/
structure TaskActivity where
  task_id : String
  activity_type : String
  message : String
  agent_id : Option String := none
  metadata : List (String × String) := []
deriving DecidableEq

/-- Task deliverable entity (`task_deliverables` row). -/
structure TaskDeliverable where
  task_id : String
  deliverable_type : String
  title : String
  path : Option String := none
  description : Option String := none
deriving DecidableEq

/-- The remote task store.  `deliverablesFetchFails` models a transient
store failure of `GET /api/tasks/{id}/deliverables` (the fetch the source
wraps in try/catch inside `getDeliverables`). -/
structure Store where
  tasks : List Task := []
  sessions : List SubAgentSession := []
  activities : List TaskActivity := []
  deliverables : List TaskDeliverable := []
  deliverablesFetchFails : Bool := false
deriving DecidableEq

/-- Structured error taxonomy of the module (§7 of the spec).  The source
throws `Error` objects; `invalidTransition` carries the two endpoints the
source message interpolates, `preconditionFailed` the message text. -/
inductive OrchError where
  | notFound (taskId : String)
  | invalidTransition (src tgt : TaskStatus)
  | preconditionFailed (message : String)
  | storeError (message : String)
deriving DecidableEq

/-- Store lookup backing `GET /api/tasks/{id}`. -/
def findTask (st : Store) (taskId : String) : Option Task :=
  st.tasks.find? (fun t => t.id == taskId)

/-- `apiGet<Task>` on `/api/tasks/{id}`: a missing task is a `notFound`
failure. -/
def apiGetTask (st : Store) (taskId : String) : Except OrchError Task :=
  match findTask st taskId with
  | some t => Except.ok t
  | none => Except.error (OrchError.notFound taskId)

/-- `apiGet<SubAgentSession[]>` on `/api/tasks/{id}/subagent` (newest
first). -/
def sessionsFor (st : Store) (taskId : String) : List SubAgentSession :=
  st.sessions.filter (fun s => s.task_id == taskId)

/-- The `filter(s => s.status === 'active')` computation the source applies
to the session list. -/
def activeSessionsFor (st : Store) (taskId : String) : List SubAgentSession :=
  (sessionsFor st taskId).filter (fun s => s.status == "active")

/-- Deliverable rows of a task, as returned by
`GET /api/tasks/{id}/deliverables` when the store is healthy. -/
def deliverablesFor (st : Store) (taskId : String) : List TaskDeliverable :=
  st.deliverables.filter (fun d => d.task_id == taskId)

/-- The raw store fetch `apiGet<TaskDeliverable[]>`: surfaces a store
failure as an error. -/
def apiGetDeliverables (st : Store) (taskId : String) :
    Except OrchError (List TaskDeliverable) :=
  if st.deliverablesFetchFails then
    Except.error (OrchError.storeError "GET deliverables failed")
  else Except.ok (deliverablesFor st taskId)

/-- `getDeliverables(taskId)` from the source: the fetch is wrapped in
try/catch, and on error the function logs and returns the empty list. -/
def getDeliverables (st : Store) (taskId : String) :
    Except OrchError (List TaskDeliverable) :=
  match apiGetDeliverables st taskId with
  | Except.ok ds => Except.ok ds
  | Except.error _ => Except.ok []

/-- `verifyTaskHasDeliverables(taskId)` from the source. -/
def verifyTaskHasDeliverables (st : Store) (taskId : String) :
    Except OrchError Bool := do
  let deliverables ← getDeliverables st taskId
  return decide (deliverables.length > 0)

/-- Parameters of `logActivity` (`LogActivityParams`). -/
structure LogActivityParams where
  taskId : String
  activityType : String
  message : String
  agentId : Option String := none
  metadata : List (String × String) := []

/-- `logActivity(params)` from the source: `POST
/api/tasks/{id}/activities`, appending one row to the activity feed.  The
source catches store failures so that logging never crashes the
orchestrator; with the reliable write model the row is appended. -/
def logActivity (st : Store) (p : LogActivityParams) : Store :=
  { st with activities := st.activities ++
      [{ task_id := p.taskId, activity_type := p.activityType,
         message := p.message, agent_id := p.agentId,
         metadata := p.metadata }] }

/-- Applying `PATCH /api/tasks/{id}` with a new status to the store. -/
def updateTaskStatus (st : Store) (taskId : String) (ns : TaskStatus) :
    Store :=
  { st with tasks := st.tasks.map (fun t =>
      if t.id == taskId then { t with status := ns } else t) }

/-- `transitionStatus(taskId, newStatus)` from the source: re-fetch the
current status, reject with `invalidTransition` (naming the stored current
status and the target) unless the move is forward-only, otherwise PATCH the
new status.  The optional `updated_by_agent_id` passthrough is not modelled
(the `Task` model does not carry it).  On error no store update is issued:
the error result carries no successor store. -/
def transitionStatus (st : Store) (taskId : String) (newStatus : TaskStatus) :
    Except OrchError (Task × Store) := do
  let task ← apiGetTask st taskId
  if !(isValidTransition task.status newStatus) then
    Except.error (OrchError.invalidTransition task.status newStatus)
  else
    Except.ok ({ task with status := newStatus },
               updateTaskStatus st taskId newStatus)

/-- `moveToReview(taskId)` from the source: require at least one registered
deliverable, then transition to `review`. -/
def moveToReview (st : Store) (taskId : String) :
    Except OrchError (Task × Store) := do
  let deliverables ← getDeliverables st taskId
  if deliverables.length == 0 then
    Except.error (OrchError.preconditionFailed
      "Cannot move to review: no deliverables registered.")
  else
    transitionStatus st taskId TaskStatus.review

/-- Parameters of `spawnSubAgent` (`SpawnSubAgentParams`). -/
structure SpawnSubAgentParams where
  taskId : String
  sessionId : String
  agentName : String
  description : Option String := none

/-- `spawnSubAgent(params)` from the source.  Lists the task's sessions and
filters the active ones; if any exist, returns the newest one's external id
with `reused: true` and logs an "updated" activity, registering nothing new;
otherwise logs a "spawned" activity and registers the new session (created
`active` per the schema default) concurrently — two writes to disjoint store
fields, modelled sequentially. -/
def spawnSubAgent (st : Store) (p : SpawnSubAgentParams) :
    (String × Bool) × Store :=
  let active := activeSessionsFor st p.taskId
  match active with
  | newest :: _ =>
    let st1 := logActivity st
      { taskId := p.taskId, activityType := "updated",
        message := "Reusing existing sub-agent session: " ++
          (newest.agent_name.getD newest.openclaw_session_id),
        metadata := [("sessionId", newest.openclaw_session_id),
                     ("reused", "true")] }
    ((newest.openclaw_session_id, true), st1)
  | [] =>
    let st1 := logActivity st
      { taskId := p.taskId, activityType := "spawned",
        message := "Sub-agent spawned: " ++ p.agentName,
        metadata := [("sessionId", p.sessionId), ("role", p.agentName)] }
    let newSession : SubAgentSession :=
      { id := p.sessionId, openclaw_session_id := p.sessionId,
        task_id := p.taskId, status := "active",
        agent_name := some p.agentName }
    ((p.sessionId, false), { st1 with sessions := newSession :: st1.sessions })

/-- Legacy `registerSubAgentSession(params)` from the source: unconditional
`POST /api/tasks/{id}/subagent`, registering a session with no duplicate
check. -/
def registerSubAgentSession (st : Store) (taskId sessionId : String)
    (agentName : Option String) : Store :=
  { st with sessions :=
      { id := sessionId, openclaw_session_id := sessionId,
        task_id := taskId, status := "active",
        agent_name := agentName } :: st.sessions }

/-- One deliverable entry of `CompleteSubAgentParams.deliverables`. -/
structure DeliverableInput where
  type : String
  title : String
  path : Option String := none
  description : Option String := none

/-- Parameters of `completeSubAgent` (`CompleteSubAgentParams`). -/
structure CompleteSubAgentParams where
  taskId : String
  sessionId : String
  agentName : String
  summary : String
  deliverables : List DeliverableInput := []

/-- Parameters of `logDeliverable` (`LogDeliverableParams`). -/
structure LogDeliverableParams where
  taskId : String
  deliverableType : String
  title : String
  path : Option String := none
  description : Option String := none

/-- `logDeliverable(params)` from the source: when the deliverable is a file
with a path, warn (first component of the result) exactly when the resolved
path neither starts with the resolved root nor starts with `/`; then attempt
the registration regardless, swallowing store failures.  The function never
hard-fails. -/
def logDeliverable (env : Env) (st : Store) (p : LogDeliverableParams) :
    Bool × Store :=
  let warned :=
    match p.path with
    | some pa =>
      if p.deliverableType == "file" then
        let resolvedPath := expandHome env.home pa
        let resolvedBase := expandHome env.home env.projectsBase
        !(jsStartsWith resolvedPath resolvedBase) &&
          !(jsStartsWith resolvedPath "/")
      else false
    | none => false
  (warned,
   { st with deliverables := st.deliverables ++
       [{ task_id := p.taskId, deliverable_type := p.deliverableType,
          title := p.title, path := p.path,
          description := p.description }] })

/-- `PATCH /api/openclaw/sessions/{sessionId}` with `{status: 'completed',
ended_at: now}`: the store marks the matching session completed.  `now`
stands for `new Date().toISOString()`. -/
def markSessionCompleted (st : Store) (sessionId now : String) : Store :=
  { st with sessions := st.sessions.map (fun s =>
      if s.openclaw_session_id == sessionId then
        { s with status := "completed", ended_at := some now }
      else s) }

/-- `completeSubAgent(params)` from the source: concurrently log a
completion activity, mark the named session completed with a timestamp, and
register every supplied deliverable — writes to disjoint store fields,
modelled sequentially. -/
def completeSubAgent (env : Env) (st : Store) (now : String)
    (p : CompleteSubAgentParams) : Store :=
  let st1 := logActivity st
    { taskId := p.taskId, activityType := "completed",
      message := p.agentName ++ " completed: " ++ p.summary,
      metadata := [("sessionId", p.sessionId)] }
  let st2 := markSessionCompleted st1 p.sessionId now
  p.deliverables.foldl (fun s d =>
    (logDeliverable env s
      { taskId := p.taskId, deliverableType := d.type, title := d.title,
        path := d.path, description := d.description }).2) st2

/-- Activity rows of a task, as returned by
`GET /api/tasks/{id}/activities`. -/
def activitiesFor (st : Store) (taskId : String) : List TaskActivity :=
  st.activities.filter (fun a => a.task_id == taskId)

/-- Report returned by `endStateCheck` (`EndStateReport`). -/
structure EndStateReport where
  allDeliverablesExist : Bool
  deliverablesRegistered : Bool
  sessionsCompleted : Bool
  completionActivityLogged : Bool
  statusIsReview : Bool
  ready : Bool
  issues : List String
deriving DecidableEq

/-- `endStateCheck(taskId)` from the source: the five sub-checks, the
`issues` list in push order, and the `ready` flag exactly as the source
computes it. -/
def endStateCheck (st : Store) (taskId : String) :
    Except OrchError EndStateReport := do
  let deliverables ← getDeliverables st taskId
  let deliverablesRegistered := decide (deliverables.length > 0)
  let issues1 : List String :=
    if deliverablesRegistered then [] else
      ["No deliverables registered via API"]
  let allDeliverablesExist := deliverables.all (fun d =>
    if d.deliverable_type != "file" then true else true)
  let sessions := sessionsFor st taskId
  let activeSessions := sessions.filter (fun s => s.status == "active")
  let sessionsCompleted := decide (activeSessions.length = 0)
  let issues2 : List String :=
    if sessionsCompleted then [] else
      [toString activeSessions.length ++ " sub-agent session(s) still active"]
  let activities := activitiesFor st taskId
  let completionActivityLogged :=
    activities.any (fun a => a.activity_type == "completed")
  let issues3 : List String :=
    if completionActivityLogged then [] else
      ["No completion activity logged"]
  let task ← apiGetTask st taskId
  let statusIsReview := task.status == TaskStatus.review
  let issues4 : List String :=
    if !statusIsReview && !(task.status == TaskStatus.done) then
      ["Task status is " ++ statusToString task.status ++ ", expected review"]
    else []
  let ready := deliverablesRegistered && sessionsCompleted &&
    completionActivityLogged &&
    (statusIsReview || task.status == TaskStatus.done)
  Except.ok
    { allDeliverablesExist := allDeliverablesExist,
      deliverablesRegistered := deliverablesRegistered,
      sessionsCompleted := sessionsCompleted,
      completionActivityLogged := completionActivityLogged,
      statusIsReview := statusIsReview,
      ready := ready,
      issues := issues1 ++ issues2 ++ issues3 ++ issues4 }

/-- Result of `preflight` (`PreflightResult`). -/
structure PreflightResult where
  task : Task
  status : TaskStatus
  outputDir : String
  existingSessions : List SubAgentSession
  hasActiveSession : Bool
  canStart : Bool
  reason : Option String
deriving DecidableEq

/-- `preflight(taskId, dispatcherOutputDir?)` from the source: fetch the
task, derive the output directory (the dispatcher-supplied value when
present, otherwise the default `{root}/{taskId}/` — the task-metadata branch
of the source is a comment only and reads nothing), pass it through
`safePath`, list the task's sessions, and apply the status alignment
table. -/
def preflight (env : Env) (st : Store) (taskId : String)
    (dispatcherOutputDir : Option String) :
    Except OrchError PreflightResult := do
  let task ← apiGetTask st taskId
  let status := task.status
  let outputDir0 :=
    match dispatcherOutputDir with
    | some d => d
    | none => env.projectsBase ++ "/" ++ taskId ++ "/"
  let outputDir := safePath env outputDir0 taskId
  let existingSessions := sessionsFor st taskId
  let activeSessions := existingSessions.filter (fun s =>
    s.status == "active")
  let hasActiveSession := decide (activeSessions.length > 0)
  let canStart :=
    match status with
    | TaskStatus.assigned => true
    | TaskStatus.in_progress => true
    | _ => false
  let reason : Option String :=
    match status with
    | TaskStatus.inbox => some "Task is in inbox — waiting for assignment."
    | TaskStatus.assigned =>
      some "Task is assigned — ready to start. Will PATCH to in_progress."
    | TaskStatus.in_progress => some "Task is in progress — continue work."
    | TaskStatus.testing =>
      some "Task is in testing — automated gate, do not override."
    | TaskStatus.review => some "Task is in review — awaiting human approval."
    | TaskStatus.done => some "Task is done — halt safely."
  Except.ok
    { task := task, status := status, outputDir := outputDir,
      existingSessions := existingSessions,
      hasActiveSession := hasActiveSession,
      canStart := canStart, reason := reason }

/-- Modelled from the spec: the output-directory derivation of §4.2 step 2,
with priority dispatcher-supplied value, then the task-metadata value, then
the default `{root}/{taskId}/`, always passed through the Path Sandbox.  The
task-metadata source of this derivation is absent from the code (`preflight`
mentions it only in a comment); this definition exists to be compared with
the code's derivation. -/
def deriveOutputDirSpec (env : Env) (task : Task) (taskId : String)
    (dispatcherOutputDir : Option String) : String :=
  safePath env
    (dispatcherOutputDir.getD
      (task.metadata.getD (env.projectsBase ++ "/" ++ taskId ++ "/")))
    taskId

/-! Concrete instances used by the witnesses and counterexamples below. -/

/-- Concrete environment: home directory `/home/u`, configured root
`/projects`. -/
def env0 : Env := { home := "/home/u", projectsBase := "/projects" }

/-- One active session of task `T1` (external id `S1`). -/
def wSession2 : SubAgentSession :=
  { id := "S1", openclaw_session_id := "S1", task_id := "T1",
    status := "active", agent_name := some "Developer" }

/-- Store with task `T1` in progress and one active session. -/
def wStSpawn : Store :=
  { tasks := [{ id := "T1", status := TaskStatus.in_progress }],
    sessions := [wSession2] }

/-- Spawn request for task `T1` with a fresh session id. -/
def wP2 : SpawnSubAgentParams :=
  { taskId := "T1", sessionId := "S2", agentName := "Writer" }

/-- Store whose task `T1` is `done`, with a registered deliverable, a
completion activity and no sessions. -/
def stDoneReady : Store :=
  { tasks := [{ id := "T1", status := TaskStatus.done }],
    activities := [{ task_id := "T1", activity_type := "completed",
                     message := "Developer completed: built it" }],
    deliverables := [{ task_id := "T1", deliverable_type := "file",
                       title := "Doc", path := some "/projects/T1/doc.md" }] }

/-- Task `T5` sitting in `review`. -/
def wTaskReady : Task := { id := "T5", status := TaskStatus.review }

/-- Store where task `T5` is fully ready for review. -/
def wStReady : Store :=
  { tasks := [wTaskReady],
    activities := [{ task_id := "T5", activity_type := "completed",
                     message := "Writer completed: report" }],
    deliverables := [{ task_id := "T5", deliverable_type := "file",
                       title := "Report",
                       path := some "/projects/T5/report.md" }] }

/-- The report `endStateCheck` produces on `wStReady`/`T5`. -/
def wReport : EndStateReport :=
  { allDeliverablesExist := true, deliverablesRegistered := true,
    sessionsCompleted := true, completionActivityLogged := true,
    statusIsReview := true, ready := true, issues := [] }

/-- Task `T2` in progress. -/
def w5Task : Task := { id := "T2", status := TaskStatus.in_progress }

/-- A registered file deliverable of task `T2`. -/
def w5Deliv : TaskDeliverable :=
  { task_id := "T2", deliverable_type := "file", title := "Report",
    path := some "/projects/T2/report.md" }

/-- Store with task `T2` in progress and one registered deliverable. -/
def w5St : Store := { tasks := [w5Task], deliverables := [w5Deliv] }

/-- Task `T3` sitting in `review`. -/
def w6Task : Task := { id := "T3", status := TaskStatus.review }

/-- Store containing only task `T3`. -/
def w6St : Store := { tasks := [w6Task] }

/-- Store whose deliverables endpoint is failing even though a deliverable
row exists for `T1`. -/
def stFetchFail : Store :=
  { tasks := [{ id := "T1", status := TaskStatus.in_progress }],
    deliverables := [{ task_id := "T1", deliverable_type := "file",
                       title := "Doc" }],
    deliverablesFetchFails := true }

/-- Task `T1` whose metadata carries an output directory. -/
def taskMeta8 : Task :=
  { id := "T1", status := TaskStatus.in_progress,
    metadata := some "/projects/custom/" }

/-- Store containing only `taskMeta8`. -/
def stMeta8 : Store := { tasks := [taskMeta8] }

/-- Store with two active sessions for task `T1`, reached through the
module's own exported operations: a `spawnSubAgent` followed by the legacy
`registerSubAgentSession` (which posts unconditionally). -/
def stTwoActive : Store :=
  registerSubAgentSession
    (spawnSubAgent { tasks := [{ id := "T1", status := TaskStatus.in_progress }] }
      { taskId := "T1", sessionId := "A", agentName := "Developer" }).2
    "T1" "B" (some "Writer")

/-- Completion request for session `A` of task `T1`. -/
def pTwoActive : CompleteSubAgentParams :=
  { taskId := "T1", sessionId := "A", agentName := "Developer",
    summary := "built it" }

/-- Store with task `T1` in progress and a single active session `S1`. -/
def wStComplete : Store :=
  { tasks := [{ id := "T1", status := TaskStatus.in_progress }],
    sessions := [{ id := "S1", openclaw_session_id := "S1",
                   task_id := "T1", status := "active",
                   agent_name := some "Developer" }] }

/-- Completion request for session `S1` of task `T1`, carrying one file
deliverable. -/
def wPComplete : CompleteSubAgentParams :=
  { taskId := "T1", sessionId := "S1", agentName := "Developer",
    summary := "built it",
    deliverables := [{ type := "file", title := "Component",
                       path := some "/projects/T1/Component.tsx" }] }

/-- Empty store. -/
def stEmpty : Store := {}

/-- File deliverable registration whose path is absolute and outside the
configured root. -/
def pPasswd : LogDeliverableParams :=
  { taskId := "T1", deliverableType := "file", title := "Escape attempt",
    path := some "/etc/passwd" }

end MissionControl

namespace MissionControl

/-! Helper lemmas shared by the claim theorems. -/

-- The source comparison of `STATUS_ORDER` positions agrees with the direct
-- index function; 36 cases.
lemma isValidTransition_eq_decide (src tgt : TaskStatus) :
    isValidTransition src tgt = decide (statusIndex src < statusIndex tgt) := by
  cases src <;> cases tgt <;> decide

-- A character list is a prefix of anything it is appended to.
lemma isPrefixOf_append_self (l r : List Char) :
    l.isPrefixOf (l ++ r) = true := by
  induction l with
  | nil => simp [List.isPrefixOf]
  | cons a as ih => simp [List.isPrefixOf, ih]

-- Looking a task up after a status PATCH finds the task with the new
-- status.
lemma findTask_updateTaskStatus (st : Store) (taskId : String)
    (ns : TaskStatus) :
    findTask (updateTaskStatus st taskId ns) taskId =
      (findTask st taskId).map (fun t => { t with status := ns }) := by
  unfold findTask updateTaskStatus
  induction st.tasks with
  | nil => rfl
  | cons t ts ih =>
    cases h : t.id == taskId with
    | true => simp [List.find?, h]
    | false => simpa [List.find?, h] using ih

-- The active-session view only depends on the sessions field.
lemma activeSessionsFor_of_sessions_eq (st1 st2 : Store) (taskId : String)
    (h : st1.sessions = st2.sessions) :
    activeSessionsFor st1 taskId = activeSessionsFor st2 taskId := by
  simp [activeSessionsFor, sessionsFor, h]

-- The reuse branch of `spawnSubAgent`, as an equation.
lemma spawnSubAgent_reuse (st : Store) (p : SpawnSubAgentParams)
    (s : SubAgentSession) (rest : List SubAgentSession)
    (h : activeSessionsFor st p.taskId = s :: rest) :
    spawnSubAgent st p = ((s.openclaw_session_id, true), logActivity st
      { taskId := p.taskId, activityType := "updated",
        message := "Reusing existing sub-agent session: " ++
          (s.agent_name.getD s.openclaw_session_id),
        metadata := [("sessionId", s.openclaw_session_id),
                     ("reused", "true")] }) := by
  unfold spawnSubAgent
  rw [h]

-- The deliverable-registration fold of `completeSubAgent` leaves sessions
-- and activities unchanged and appends exactly the supplied deliverables.
lemma foldLogDeliverable_fields (env : Env) (tid : String)
    (l : List DeliverableInput) (s : Store) :
    (l.foldl (fun s d =>
      (logDeliverable env s
        { taskId := tid, deliverableType := d.type, title := d.title,
          path := d.path, description := d.description }).2) s).sessions
        = s.sessions
    ∧ (l.foldl (fun s d =>
      (logDeliverable env s
        { taskId := tid, deliverableType := d.type, title := d.title,
          path := d.path, description := d.description }).2) s).activities
        = s.activities
    ∧ (l.foldl (fun s d =>
      (logDeliverable env s
        { taskId := tid, deliverableType := d.type, title := d.title,
          path := d.path, description := d.description }).2) s).deliverables
        = s.deliverables ++ l.map (fun d =>
            { task_id := tid, deliverable_type := d.type, title := d.title,
              path := d.path, description := d.description }) := by
  induction l generalizing s with
  | nil => simp
  | cons d ds ih =>
    obtain ⟨ih1, ih2, ih3⟩ := ih
      ((logDeliverable env s
        { taskId := tid, deliverableType := d.type, title := d.title,
          path := d.path, description := d.description }).2)
    refine ⟨?_, ?_, ?_⟩
    · simpa [logDeliverable] using ih1
    · simpa [logDeliverable] using ih2
    · simp only [List.foldl_cons] at ih3 ⊢
      rw [ih3]
      simp [logDeliverable]

-- After the session PATCH of `completeSubAgent`, a task whose active
-- sessions all carried the patched id has no active session left.
lemma active_after_mark (l : List SubAgentSession) (sid now tid : String)
    (h : ∀ s ∈ (l.filter (fun s => s.task_id == tid)).filter
        (fun s => s.status == "active"), s.openclaw_session_id = sid) :
    ((l.map (fun s => if s.openclaw_session_id == sid then
        { s with status := "completed", ended_at := some now }
      else s)).filter (fun s => s.task_id == tid)).filter
        (fun s => s.status == "active") = [] := by
  rw [List.filter_eq_nil_iff]
  intro a ha
  obtain ⟨haMem, hatask⟩ := List.mem_filter.mp ha
  obtain ⟨x, hx, hfx⟩ := List.mem_map.mp haMem
  by_cases hxsid : x.openclaw_session_id = sid
  · subst hfx
    simp [hxsid]
  · have hfx2 : a = x := by
      rw [← hfx]
      simp [hxsid]
    subst hfx2
    intro hact
    exact hxsid (h a (List.mem_filter.mpr
      ⟨List.mem_filter.mpr ⟨hx, hatask⟩, hact⟩))

-- After the session PATCH of `completeSubAgent`, every session carrying
-- the patched id is completed with the supplied timestamp.
lemma markSessionCompleted_marks (l : List SubAgentSession)
    (sid now : String) :
    ∀ s ∈ l.map (fun s => if s.openclaw_session_id == sid then
        { s with status := "completed", ended_at := some now }
      else s),
      s.openclaw_session_id = sid →
      s.status = "completed" ∧ s.ended_at = some now := by
  intro s hs hsid
  obtain ⟨x, hx, hfx⟩ := List.mem_map.mp hs
  by_cases hxsid : x.openclaw_session_id = sid
  · subst hfx
    simp [hxsid]
  · have hfx2 : s = x := by
      rw [← hfx]
      simp [hxsid]
    subst hfx2
    exact absurd hsid hxsid

/-! Claim theorems. -/

/-- Claim C1: for all ordered pairs of lifecycle statuses,
`isValidTransition from to` returns `true` exactly when the index of `to`
in the fixed lifecycle order is strictly greater than the index of
`from`. -/
theorem isValidTransition_iff_statusIndex (src tgt : TaskStatus) :
    isValidTransition src tgt = true ↔ statusIndex tgt > statusIndex src := by
  cases src <;> cases tgt <;> decide

/-- Claim C2: when a task has an active session, `spawnSubAgent` returns
that session's external id with `reused: true` and registers nothing new,
so a second call in a row again returns `reused: true` and the task's
active sessions are exactly what they were — never a second active
session. -/
theorem spawnSubAgent_dedup (st : Store) (p : SpawnSubAgentParams)
    (s : SubAgentSession) (rest : List SubAgentSession)
    (h : activeSessionsFor st p.taskId = s :: rest) :
    (spawnSubAgent st p).1 = (s.openclaw_session_id, true)
    ∧ ((spawnSubAgent st p).2).sessions = st.sessions
    ∧ (spawnSubAgent (spawnSubAgent st p).2 p).1.2 = true
    ∧ activeSessionsFor ((spawnSubAgent (spawnSubAgent st p).2 p).2) p.taskId
        = activeSessionsFor st p.taskId := by
  have h1 := spawnSubAgent_reuse st p s rest h
  have hsess : ((spawnSubAgent st p).2).sessions = st.sessions := by
    rw [h1]; rfl
  have hact2 : activeSessionsFor ((spawnSubAgent st p).2) p.taskId
      = s :: rest := by
    rw [activeSessionsFor_of_sessions_eq _ st _ hsess, h]
  have h2 := spawnSubAgent_reuse ((spawnSubAgent st p).2) p s rest hact2
  have hsess2 : ((spawnSubAgent ((spawnSubAgent st p).2) p).2).sessions
      = st.sessions := by
    rw [h2]
    exact hsess
  refine ⟨by rw [h1], hsess, by rw [h2], ?_⟩
  exact activeSessionsFor_of_sessions_eq _ st _ hsess2

/-- Witness for C2: on a store with exactly one active session `S1` of task
`T1`, both spawn calls reuse `S1` and the active-session list is
unchanged. -/
theorem spawnSubAgent_dedup_witness :
    activeSessionsFor wStSpawn "T1" = wSession2 :: []
    ∧ ((spawnSubAgent wStSpawn wP2).1 = ("S1", true)
       ∧ ((spawnSubAgent wStSpawn wP2).2).sessions = wStSpawn.sessions
       ∧ (spawnSubAgent (spawnSubAgent wStSpawn wP2).2 wP2).1.2 = true
       ∧ activeSessionsFor
           ((spawnSubAgent (spawnSubAgent wStSpawn wP2).2 wP2).2) "T1"
           = activeSessionsFor wStSpawn "T1") :=
  ⟨by decide, spawnSubAgent_dedup wStSpawn wP2 wSession2 [] (by decide)⟩

/-- Counterexample to C3 as stated: on a store whose task is `done` (with a
deliverable, a completion activity and no sessions) `endStateCheck` returns
`ready = true` while the exact logical AND of its five sub-check fields is
`false` (`statusIsReview` is `false`), so `ready` is not the AND of the
five sub-checks. -/
theorem endStateCheck_ready_mismatch_cex :
    (endStateCheck stDoneReady "T1").map (fun r =>
      (r.ready, r.allDeliverablesExist && r.deliverablesRegistered &&
        r.sessionsCompleted && r.completionActivityLogged &&
        r.statusIsReview)) = Except.ok (true, false) := by decide

/-- Claim C3, amended: the `ready` field of `endStateCheck` equals
`deliverablesRegistered AND sessionsCompleted AND completionActivityLogged
AND (statusIsReview OR the task status is done)`; `allDeliverablesExist` is
not a conjunct (as computed it is constantly `true`). -/
theorem endStateCheck_ready_formula (st : Store) (taskId : String)
    (task : Task) (r : EndStateReport)
    (hfind : findTask st taskId = some task)
    (hr : endStateCheck st taskId = Except.ok r) :
    r.ready = (r.deliverablesRegistered && r.sessionsCompleted &&
      r.completionActivityLogged &&
      (r.statusIsReview || task.status == TaskStatus.done))
    ∧ r.allDeliverablesExist = true := by
  obtain ⟨ds, hds⟩ : ∃ ds, getDeliverables st taskId = Except.ok ds := by
    cases hraw : apiGetDeliverables st taskId with
    | ok ds => exact ⟨ds, by simp [getDeliverables, hraw]⟩
    | error e => exact ⟨[], by simp [getDeliverables, hraw]⟩
  rw [endStateCheck] at hr
  simp [hds, apiGetTask, hfind, Bind.bind, Except.bind] at hr
  subst hr
  simp

/-- Witness for the amended C3: evaluated on a store whose task `T5` is in
review with a deliverable and a completion activity; the returned report
satisfies the formula. -/
theorem endStateCheck_ready_formula_witness :
    findTask wStReady "T5" = some wTaskReady
    ∧ endStateCheck wStReady "T5" = Except.ok wReport
    ∧ (wReport.ready = (wReport.deliverablesRegistered &&
        wReport.sessionsCompleted && wReport.completionActivityLogged &&
        (wReport.statusIsReview || wTaskReady.status == TaskStatus.done))
       ∧ wReport.allDeliverablesExist = true) :=
  ⟨by decide, by decide,
   endStateCheck_ready_formula wStReady "T5" wTaskReady wReport
     (by decide) (by decide)⟩

/-- Claim C4: `safePath` always returns a path prefixed by the (expanded)
configured root; the candidate is returned unchanged exactly when its
expansion starts with the root, and otherwise — including for escape
attempts such as `../../etc` — the result is silently overridden to
`{root}/{taskId}/`. -/
theorem safePath_within_root (env : Env) (candidate taskId : String) :
    jsStartsWith (safePath env candidate taskId)
      (expandHome env.home env.projectsBase) = true
    ∧ (jsStartsWith (expandHome env.home candidate)
        (expandHome env.home env.projectsBase) = true →
        safePath env candidate taskId = expandHome env.home candidate)
    ∧ (jsStartsWith (expandHome env.home candidate)
        (expandHome env.home env.projectsBase) = false →
        safePath env candidate taskId =
          expandHome env.home env.projectsBase ++ "/" ++ taskId ++ "/") := by
  unfold safePath
  cases h : jsStartsWith (expandHome env.home candidate)
      (expandHome env.home env.projectsBase) with
  | true => simp [h]
  | false =>
    have hpre : jsStartsWith
        (expandHome env.home env.projectsBase ++ "/" ++ taskId ++ "/")
        (expandHome env.home env.projectsBase) = true := by
      show ((expandHome env.home env.projectsBase).data).isPrefixOf _ = true
      simp only [String.data_append, List.append_assoc]
      exact isPrefixOf_append_self _ _
    simp [h, hpre]

/-- Witness for C4: the escape attempt `../../etc` does not start with the
root `/projects`, and `safePath` overrides it to the safe default. -/
theorem safePath_within_root_witness :
    jsStartsWith (expandHome env0.home "../../etc")
      (expandHome env0.home env0.projectsBase) = false
    ∧ safePath env0 "../../etc" "T1" =
        expandHome env0.home env0.projectsBase ++ "/" ++ "T1" ++ "/" :=
  ⟨by decide, (safePath_within_root env0 "../../etc" "T1").2.2 (by decide)⟩

/-- Claim C5: with zero registered deliverables `moveToReview` fails with
`PreconditionFailed` (no store update is issued: the error carries no
successor store, so the task status is unchanged); with at least one
deliverable and a current status strictly before `review`, it succeeds and
the task's stored status becomes `review`. -/
theorem moveToReview_gate (st : Store) (taskId : String) (task : Task)
    (ds : List TaskDeliverable)
    (hfind : findTask st taskId = some task)
    (hds : getDeliverables st taskId = Except.ok ds) :
    (ds = [] → moveToReview st taskId =
       Except.error (OrchError.preconditionFailed
         "Cannot move to review: no deliverables registered."))
    ∧ (ds ≠ [] → statusIndex task.status < statusIndex TaskStatus.review →
       moveToReview st taskId =
         Except.ok ({ task with status := TaskStatus.review },
                    updateTaskStatus st taskId TaskStatus.review)
       ∧ findTask (updateTaskStatus st taskId TaskStatus.review) taskId =
           some { task with status := TaskStatus.review }) := by
  constructor
  · intro hnil
    subst hnil
    simp [moveToReview, hds, Bind.bind, Except.bind]
  · intro hne hlt
    constructor
    · simp [moveToReview, hds, Bind.bind, Except.bind, hne, transitionStatus,
        apiGetTask, hfind, isValidTransition_eq_decide, hlt]
    · rw [findTask_updateTaskStatus, hfind]
      rfl

/-- Witness for C5: task `T2` is in progress with one registered
deliverable; `moveToReview` succeeds and the stored status becomes
`review`. -/
theorem moveToReview_gate_witness :
    findTask w5St "T2" = some w5Task
    ∧ getDeliverables w5St "T2" = Except.ok [w5Deliv]
    ∧ ([w5Deliv] ≠ ([] : List TaskDeliverable))
    ∧ statusIndex w5Task.status < statusIndex TaskStatus.review
    ∧ (moveToReview w5St "T2" =
         Except.ok ({ w5Task with status := TaskStatus.review },
                    updateTaskStatus w5St "T2" TaskStatus.review)
       ∧ findTask (updateTaskStatus w5St "T2" TaskStatus.review) "T2" =
           some { w5Task with status := TaskStatus.review }) :=
  ⟨by decide, by decide, by decide, by decide,
   (moveToReview_gate w5St "T2" w5Task [w5Deliv]
     (by decide) (by decide)).2 (by decide) (by decide)⟩

/-- Claim C6: `transitionStatus` validates against the status re-fetched
from the store (there is no caller-supplied "from" at all) and rejects with
an `InvalidTransition` error naming the stored current status and the
target whenever the target is not strictly later; the error result carries
no successor store, so no status update is issued. -/
theorem transitionStatus_rejects_stale (st : Store) (taskId : String)
    (newStatus : TaskStatus) (task : Task)
    (hfind : findTask st taskId = some task)
    (hnot : ¬ statusIndex task.status < statusIndex newStatus) :
    transitionStatus st taskId newStatus =
      Except.error (OrchError.invalidTransition task.status newStatus) := by
  simp [transitionStatus, apiGetTask, hfind, Bind.bind, Except.bind,
    isValidTransition_eq_decide, hnot]

/-- Witness for C6, the spec scenario: task `T3` is in `review`, and
`transitionStatus` towards `in_progress` raises `InvalidTransition` naming
`review` and `in_progress`. -/
theorem transitionStatus_rejects_stale_witness :
    findTask w6St "T3" = some w6Task
    ∧ ¬ statusIndex w6Task.status < statusIndex TaskStatus.in_progress
    ∧ transitionStatus w6St "T3" TaskStatus.in_progress =
        Except.error (OrchError.invalidTransition TaskStatus.review
          TaskStatus.in_progress) :=
  ⟨by decide, by decide,
   transitionStatus_rejects_stale w6St "T3" TaskStatus.in_progress w6Task
     (by decide) (by decide)⟩

/-- Counterexample to C7 as stated: on a store whose deliverables fetch
fails, the raw fetch errors but `getDeliverables` still returns
successfully with the empty list — the store failure is swallowed, not
propagated to the caller. -/
theorem getDeliverables_no_propagate_cex :
    apiGetDeliverables stFetchFail "T1" =
      Except.error (OrchError.storeError "GET deliverables failed")
    ∧ (getDeliverables stFetchFail "T1").isOk = true
    ∧ getDeliverables stFetchFail "T1" = Except.ok [] := by decide

/-- Claim C7, amended: `getDeliverables` swallows store failures — whenever
the raw deliverables fetch errors it returns the empty list instead of
propagating — and `verifyTaskHasDeliverables` accordingly returns `false`
when the store errors. -/
theorem getDeliverables_swallows (st : Store) (taskId : String)
    (e : OrchError)
    (h : apiGetDeliverables st taskId = Except.error e) :
    getDeliverables st taskId = Except.ok []
    ∧ verifyTaskHasDeliverables st taskId = Except.ok false := by
  have h1 : getDeliverables st taskId = Except.ok [] := by
    simp [getDeliverables, h]
  refine ⟨h1, ?_⟩
  simp [verifyTaskHasDeliverables, h1, Bind.bind, Except.bind, pure,
    Except.pure]

/-- Witness for the amended C7: evaluated on the failing store. -/
theorem getDeliverables_swallows_witness :
    apiGetDeliverables stFetchFail "T1" =
      Except.error (OrchError.storeError "GET deliverables failed")
    ∧ (getDeliverables stFetchFail "T1" = Except.ok []
       ∧ verifyTaskHasDeliverables stFetchFail "T1" = Except.ok false) :=
  ⟨by decide,
   getDeliverables_swallows stFetchFail "T1"
     (OrchError.storeError "GET deliverables failed") (by decide)⟩

/-- Claim C8 (code bug): the task's metadata carries an output directory
and no dispatcher value is supplied, yet `preflight` derives the default
`{root}/{taskId}/` instead of the metadata value that the documented
priority (dispatcher > task metadata > default, `deriveOutputDirSpec`)
would produce. -/
theorem preflight_metadata_ignored :
    taskMeta8.metadata = some "/projects/custom/"
    ∧ (preflight env0 stMeta8 "T1" none).map (fun r => r.outputDir) =
        Except.ok "/projects/T1/"
    ∧ deriveOutputDirSpec env0 taskMeta8 "T1" none = "/projects/custom/"
    ∧ ("/projects/T1/" : String) ≠ "/projects/custom/" := by decide

/-- Counterexample to C9 as stated: a store with two active sessions for
task `T1` — reached through the module's own exported operations — on which
`completeSubAgent` for session `A` returns successfully yet one active
session remains, not zero. -/
theorem completeSubAgent_leaves_active_cex :
    (activeSessionsFor stTwoActive "T1").length = 2
    ∧ (activeSessionsFor
        (completeSubAgent env0 stTwoActive "2026-02-03T04:05:06Z" pTwoActive)
        "T1").length = 1 := by decide

/-- Claim C9, amended: after `completeSubAgent` returns, the task has at
least one "completed" activity and every supplied deliverable is registered
(both unconditionally); the session named by `sessionId` is marked
`completed` with the supplied timestamp; and the task has zero active
sessions provided every active session of the task carried the completed
session's id (in particular when the completed session was the task's only
active one). -/
theorem completeSubAgent_postconditions (env : Env) (st : Store)
    (now : String) (p : CompleteSubAgentParams) :
    (∃ a ∈ (completeSubAgent env st now p).activities,
        a.task_id = p.taskId ∧ a.activity_type = "completed")
    ∧ (completeSubAgent env st now p).deliverables =
        st.deliverables ++ p.deliverables.map (fun d =>
          { task_id := p.taskId, deliverable_type := d.type, title := d.title,
            path := d.path, description := d.description })
    ∧ (∀ s ∈ (completeSubAgent env st now p).sessions,
        s.openclaw_session_id = p.sessionId →
        s.status = "completed" ∧ s.ended_at = some now)
    ∧ ((∀ s ∈ activeSessionsFor st p.taskId,
          s.openclaw_session_id = p.sessionId) →
        activeSessionsFor (completeSubAgent env st now p) p.taskId = []) := by
  obtain ⟨f1, f2, f3⟩ := foldLogDeliverable_fields env p.taskId p.deliverables
    (markSessionCompleted (logActivity st
      { taskId := p.taskId, activityType := "completed",
        message := p.agentName ++ " completed: " ++ p.summary,
        metadata := [("sessionId", p.sessionId)] }) p.sessionId now)
  refine ⟨?_, ?_, ?_, ?_⟩
  · refine ⟨({ task_id := p.taskId, activity_type := "completed",
               message := p.agentName ++ " completed: " ++ p.summary,
               metadata := [("sessionId", p.sessionId)] } : TaskActivity),
      ?_, rfl, rfl⟩
    rw [show (completeSubAgent env st now p).activities =
        (markSessionCompleted (logActivity st
          { taskId := p.taskId, activityType := "completed",
            message := p.agentName ++ " completed: " ++ p.summary,
            metadata := [("sessionId", p.sessionId)] }) p.sessionId
          now).activities from f2]
    simp [markSessionCompleted, logActivity]
  · rw [show completeSubAgent env st now p = p.deliverables.foldl (fun s d =>
        (logDeliverable env s
          { taskId := p.taskId, deliverableType := d.type, title := d.title,
            path := d.path, description := d.description }).2)
        (markSessionCompleted (logActivity st
          { taskId := p.taskId, activityType := "completed",
            message := p.agentName ++ " completed: " ++ p.summary,
            metadata := [("sessionId", p.sessionId)] }) p.sessionId now)
      from rfl]
    exact f3
  · intro s hs hsid
    rw [show (completeSubAgent env st now p).sessions =
        (markSessionCompleted (logActivity st
          { taskId := p.taskId, activityType := "completed",
            message := p.agentName ++ " completed: " ++ p.summary,
            metadata := [("sessionId", p.sessionId)] }) p.sessionId
          now).sessions from f1] at hs
    exact markSessionCompleted_marks st.sessions p.sessionId now s hs hsid
  · intro h
    rw [show completeSubAgent env st now p = p.deliverables.foldl (fun s d =>
        (logDeliverable env s
          { taskId := p.taskId, deliverableType := d.type, title := d.title,
            path := d.path, description := d.description }).2)
        (markSessionCompleted (logActivity st
          { taskId := p.taskId, activityType := "completed",
            message := p.agentName ++ " completed: " ++ p.summary,
            metadata := [("sessionId", p.sessionId)] }) p.sessionId now)
      from rfl]
    rw [activeSessionsFor_of_sessions_eq _ _ _ f1]
    exact active_after_mark st.sessions p.sessionId now p.taskId h

/-- Witness for the amended C9: task `T1` has a single active session `S1`;
completing `S1` with one deliverable logs a completion activity, registers
the deliverable, marks `S1` completed with the timestamp, and — the proviso
holding here — leaves zero active sessions. -/
theorem completeSubAgent_postconditions_witness :
    (∀ s ∈ activeSessionsFor wStComplete "T1",
        s.openclaw_session_id = "S1")
    ∧ ((∃ a ∈ (completeSubAgent env0 wStComplete "2026-02-03T04:05:06Z"
          wPComplete).activities,
        a.task_id = "T1" ∧ a.activity_type = "completed")
       ∧ (completeSubAgent env0 wStComplete "2026-02-03T04:05:06Z"
            wPComplete).deliverables =
           wStComplete.deliverables ++ wPComplete.deliverables.map (fun d =>
             { task_id := "T1", deliverable_type := d.type, title := d.title,
               path := d.path, description := d.description })
       ∧ (∀ s ∈ (completeSubAgent env0 wStComplete "2026-02-03T04:05:06Z"
            wPComplete).sessions,
           s.openclaw_session_id = "S1" →
           s.status = "completed" ∧ s.ended_at = some "2026-02-03T04:05:06Z")
       ∧ activeSessionsFor
           (completeSubAgent env0 wStComplete "2026-02-03T04:05:06Z"
             wPComplete) "T1" = []) :=
  ⟨by decide,
   (completeSubAgent_postconditions env0 wStComplete "2026-02-03T04:05:06Z"
     wPComplete).1,
   (completeSubAgent_postconditions env0 wStComplete "2026-02-03T04:05:06Z"
     wPComplete).2.1,
   (completeSubAgent_postconditions env0 wStComplete "2026-02-03T04:05:06Z"
     wPComplete).2.2.1,
   (completeSubAgent_postconditions env0 wStComplete "2026-02-03T04:05:06Z"
     wPComplete).2.2.2 (by decide)⟩

/-- Claim C10 (code bug): a file deliverable whose path `/etc/passwd` does
not resolve under the configured root `/projects` is registered without any
warning — the source condition also requires the path not to start with
`/`, so absolute out-of-root paths are exempt from the warning the claim
and the module's own documentation describe; the call still registers the
deliverable and returns normally. -/
theorem logDeliverable_absolute_path_silent :
    jsStartsWith (expandHome env0.home "/etc/passwd")
      (expandHome env0.home env0.projectsBase) = false
    ∧ (logDeliverable env0 stEmpty pPasswd).1 = false
    ∧ (logDeliverable env0 stEmpty pPasswd).2.deliverables =
        stEmpty.deliverables ++
          [{ task_id := "T1", deliverable_type := "file",
             title := "Escape attempt", path := some "/etc/passwd" }] := by
  decide

end MissionControl
